import Mathlib

/-!
Verification of the ESP32-C6 LED controller core: the state-owner tick loop
(led_blink_logic), the pure rotation and naming logic from esp-core, the
broadcast/command channel policies, and the WebSocket protocol layer.

Shallow embedding conventions: u8 channel values are Nat (the code performs
no channel arithmetic, only permutation and zero tests); the async tick loop
becomes a pure per-tick step function threaded over input lists; the LED
writer becomes a Bool oracle (true = write succeeded); channel sends become
values returned by the step.
-/

namespace EspLed

/-- RGB8 from the rgb crate: one byte per channel. -/
structure RGB8 where
  r : Nat
  g : Nat
  b : Nat
deriving DecidableEq, Repr

/-- Source esp-core/src/logic.rs rotate_color: r takes the old b, g takes the
old r, b takes the old g. -/
def rotate_color (color : RGB8) : RGB8 :=
  { r := color.b
    g := color.r
    b := color.g }

/-- Source esp-firmware/src/config.rs LED_BRIGHTNESS. -/
def LED_BRIGHTNESS : Nat := 10

/-- Source esp-core/src/types.rs DEFAULT_BRIGHTNESS (inside LedCommand try_from). -/
def DEFAULT_BRIGHTNESS : Nat := 10

/-- Source esp-core/src/types.rs LedColorMessage. -/
structure LedColorMessage where
  color : RGB8
  name : String
  is_auto_mode : Bool
deriving DecidableEq, Repr

/-- Source esp-core/src/types.rs LedColorMessage::from_color: the name is
derived from the rgb pattern match. -/
def LedColorMessage.from_color (color : RGB8) (is_auto_mode : Bool) : LedColorMessage :=
  let name :=
    if color.g = 0 ∧ color.b = 0 ∧ 0 < color.r then "Rot"
    else if color.r = 0 ∧ color.b = 0 ∧ 0 < color.g then "Grün"
    else if color.r = 0 ∧ color.g = 0 ∧ 0 < color.b then "Blau"
    else "Unbekannt"
  { color := color, name := name, is_auto_mode := is_auto_mode }

/-- Source esp-core/src/types.rs LedCommand. -/
inductive LedCommand where
  | SetColor (target_color : RGB8) (name : String)
  | EnableAuto
deriving DecidableEq, Repr

/-- Source esp-core/src/types.rs impl TryFrom for LedCommand (Err becomes none). -/
def LedCommand.tryFrom (name : String) : Option LedCommand :=
  if name = "Rot" then
    some (.SetColor { r := DEFAULT_BRIGHTNESS, g := 0, b := 0 } "Rot")
  else if name = "Grün" then
    some (.SetColor { r := 0, g := DEFAULT_BRIGHTNESS, b := 0 } "Grün")
  else if name = "Blau" then
    some (.SetColor { r := 0, g := 0, b := DEFAULT_BRIGHTNESS } "Blau")
  else none

/-- Source esp-firmware/src/lib.rs led_command_from_name: same table with the
firmware LED_BRIGHTNESS. -/
def led_command_from_name (name : String) : Option LedCommand :=
  if name = "Rot" then
    some (.SetColor { r := LED_BRIGHTNESS, g := 0, b := 0 } "Rot")
  else if name = "Grün" then
    some (.SetColor { r := 0, g := LED_BRIGHTNESS, b := 0 } "Grün")
  else if name = "Blau" then
    some (.SetColor { r := 0, g := 0, b := LED_BRIGHTNESS } "Blau")
  else none

/-! The state-owner loop led_blink_logic (esp-firmware/src/tasks/led_blink.rs),
embedded as a per-tick function. The mutable locals of the loop form the state;
the try_receive result is the optional command input; the LED write result is a
Bool input; the publish (if any) is part of the output. -/

/-- Mutable state of the led_blink_logic loop: the color and the auto_rotate flag. -/
structure LoopState where
  color : RGB8
  auto_rotate : Bool
deriving DecidableEq, Repr

/-- Initial loop state of led_blink_logic: default RGB8 with r set to
LED_BRIGHTNESS, auto rotation on. -/
def initLoopState : LoopState :=
  { color := { r := LED_BRIGHTNESS, g := 0, b := 0 }, auto_rotate := true }

/-- Result of the command-consumption step inside a tick: updated locals plus
the color_changed flag as set by the match on the command. -/
structure CmdStepResult where
  color : RGB8
  auto_rotate : Bool
  color_changed : Bool
deriving DecidableEq, Repr

/-- The command branch of a tick of led_blink_logic: the match on
command_receiver.try_receive. SetColor adopts the color, leaves auto rotation
off and marks changed; EnableAuto only turns auto rotation on; no command
leaves everything as is. -/
def cmdStep (s : LoopState) (cmd : Option LedCommand) : CmdStepResult :=
  match cmd with
  | some (.SetColor target_color _name) =>
      { color := target_color, auto_rotate := false, color_changed := true }
  | some .EnableAuto =>
      { color := s.color, auto_rotate := true, color_changed := false }
  | none =>
      { color := s.color, auto_rotate := s.auto_rotate, color_changed := false }

/-- Everything one tick of led_blink_logic produces: the next loop state, the
color handed to the LED writer, whether the write error was logged, and the
message published on the broadcast channel (none when color_changed is false). -/
structure TickResult where
  state : LoopState
  written : RGB8
  write_error_logged : Bool
  published : Option LedColorMessage
deriving DecidableEq, Repr

/-- One full tick of led_blink_logic: consume at most one command, rotate when
in auto mode (setting color_changed), write the color to the LED (writeOk is
the oracle for the hardware result; a failure is logged), and publish a
from_color message exactly when color_changed is set. -/
def ledBlinkTick (s : LoopState) (cmd : Option LedCommand) (writeOk : Bool) : TickResult :=
  let c := cmdStep s cmd
  let rotated : RGB8 × Bool :=
    if c.auto_rotate then (rotate_color c.color, true) else (c.color, c.color_changed)
  let color := rotated.1
  let color_changed := rotated.2
  let published :=
    if color_changed then some (LedColorMessage.from_color color c.auto_rotate) else none
  { state := { color := color, auto_rotate := c.auto_rotate }
    written := color
    write_error_logged := !writeOk
    published := published }

/-- Run the loop over a list of per-tick command inputs, with all LED writes
succeeding (the state does not depend on write results, proved separately). -/
def runTicks (s : LoopState) : List (Option LedCommand) → LoopState
  | [] => s
  | cmd :: rest => runTicks (ledBlinkTick s cmd true).state rest

/-- The three canonical colors: the values the rotation cycles through from the
boot color, at the firmware brightness. -/
def canonicalColors : List RGB8 :=
  [ { r := LED_BRIGHTNESS, g := 0, b := 0 },
    { r := 0, g := LED_BRIGHTNESS, b := 0 },
    { r := 0, g := 0, b := LED_BRIGHTNESS } ]

/-- A command is reachable when some adapter can actually put it on the command
channel: the only producer is the WebSocket handler, which sends EnableAuto or
a successful LedCommand try_from result. -/
def ReachableCmd (cmd : LedCommand) : Prop :=
  cmd = .EnableAuto ∨ ∃ s : String, LedCommand.tryFrom s = some cmd

/-- Whether the tick consumed a SetColor command. -/
def consumesSetColor : Option LedCommand → Bool
  | some (.SetColor _ _) => true
  | _ => false

theorem mem_canonical_rotate {c : RGB8} (h : c ∈ canonicalColors) :
    rotate_color c ∈ canonicalColors := by
  simp only [canonicalColors, List.mem_cons, List.not_mem_nil, or_false] at h
  rcases h with h | h | h <;> subst h <;> decide

theorem mem_canonical_rotate_ne {c : RGB8} (h : c ∈ canonicalColors) :
    rotate_color c ≠ c := by
  simp only [canonicalColors, List.mem_cons, List.not_mem_nil, or_false] at h
  rcases h with h | h | h <;> subst h <;> decide

theorem tryFrom_setColor_canonical {s : String} {tc : RGB8} {n : String}
    (h : LedCommand.tryFrom s = some (.SetColor tc n)) : tc ∈ canonicalColors := by
  unfold LedCommand.tryFrom at h
  split_ifs at h <;>
    simp only [Option.some.injEq, LedCommand.SetColor.injEq] at h
  · rw [← h.1]; decide
  · rw [← h.1]; decide
  · rw [← h.1]; decide

theorem tick_preserves_canonical {s : LoopState} {cmd : Option LedCommand} {ok : Bool}
    (hs : s.color ∈ canonicalColors)
    (hc : ∀ c, cmd = some c → ReachableCmd c) :
    (ledBlinkTick s cmd ok).state.color ∈ canonicalColors := by
  match cmd with
  | none =>
      simp only [ledBlinkTick, cmdStep]
      by_cases h : s.auto_rotate <;> simp [h, mem_canonical_rotate hs, hs]
  | some .EnableAuto =>
      simpa [ledBlinkTick, cmdStep] using mem_canonical_rotate hs
  | some (.SetColor tc n) =>
      have hr := hc (.SetColor tc n) rfl
      rcases hr with h | ⟨str, h⟩
      · exact absurd h (by simp)
      · simpa [ledBlinkTick, cmdStep] using tryFrom_setColor_canonical h

theorem runTicks_canonical {s : LoopState} (inputs : List (Option LedCommand))
    (hs : s.color ∈ canonicalColors)
    (h : ∀ cmd ∈ inputs, ∀ c, cmd = some c → ReachableCmd c) :
    (runTicks s inputs).color ∈ canonicalColors := by
  induction inputs generalizing s with
  | nil => exact hs
  | cons cmd rest ih =>
      simp only [runTicks]
      exact ih (tick_preserves_canonical hs (h cmd (List.mem_cons_self cmd rest)))
        (fun c hc => h c (List.mem_cons_of_mem cmd hc))

theorem runTicks_replicate_none (n : Nat) (c : RGB8) :
    runTicks { color := c, auto_rotate := true } (List.replicate n none) =
      { color := rotate_color^[n] c, auto_rotate := true } := by
  induction n generalizing c with
  | zero => simp [runTicks]
  | succ n ih =>
      rw [List.replicate_succ]
      simp only [runTicks, ledBlinkTick, cmdStep, if_true]
      rw [Function.iterate_succ_apply]
      exact ih (rotate_color c)

theorem rotate_color_iterate_three (c : RGB8) : rotate_color^[3] c = c := rfl

/-- C2: rotate_color is the fixed 3-cycle in which channel 1 takes the old
channel 3, channel 2 the old channel 1 and channel 3 the old channel 2; its
third iterate is the identity on every RGB color; and from the boot state with
no commands the loop color has period 3 (value after n + 3 ticks equals value
after n ticks), stays inside the three canonical values, and the values after
1, 2 and 3 ticks are pairwise distinct (so it cycles through exactly 3 values
and returns to its start after 3 Auto-mode ticks). -/
theorem rotate_color_three_cycle_period :
    (∀ c : RGB8, rotate_color c = { r := c.b, g := c.r, b := c.g }) ∧
    (∀ c : RGB8, rotate_color (rotate_color (rotate_color c)) = c) ∧
    (∀ n : Nat,
      (runTicks initLoopState (List.replicate (n + 3) none)).color =
        (runTicks initLoopState (List.replicate n none)).color) ∧
    (∀ n : Nat,
      (runTicks initLoopState (List.replicate n none)).color ∈ canonicalColors) ∧
    (((List.range 3).map
        (fun n => (runTicks initLoopState (List.replicate (n + 1) none)).color)).Nodup) := by
  refine ⟨fun c => rfl, fun c => rfl, ?_, ?_, ?_⟩
  · intro n
    have h3 := runTicks_replicate_none (n + 3) initLoopState.color
    have hn := runTicks_replicate_none n initLoopState.color
    simp only [initLoopState] at *
    rw [h3, hn]
    have : rotate_color^[n + 3] = rotate_color^[n] ∘ rotate_color^[3] :=
      Function.iterate_add rotate_color n 3
    rfl
  · intro n
    exact runTicks_canonical _ (by decide) (by intro cmd hc c h; simp_all [List.eq_of_mem_replicate hc])
  · decide

/-- C1: a tick of led_blink_logic publishes exactly one broadcast message if
and only if the state changed that tick, in the sense the spec defines it: a
SetColor command was consumed or the mode after command handling is Auto so
rotation ran (at most one publish per tick is structural: the tick returns at
most one message). Moreover every color the loop can hold, starting from boot
under reachable commands, is canonical, and on every such color an Auto-mode
tick really changes the color, so a no-change Auto tick is impossible: the
equal-channel colors that rotate_color maps to themselves are unreachable. -/
theorem led_blink_publish_iff_state_change :
    (∀ (s : LoopState) (cmd : Option LedCommand) (ok : Bool),
      (ledBlinkTick s cmd ok).published.isSome = true ↔
        (consumesSetColor cmd = true ∨ (cmdStep s cmd).auto_rotate = true)) ∧
    (∀ inputs : List (Option LedCommand),
      (∀ cmd ∈ inputs, ∀ c, cmd = some c → ReachableCmd c) →
      (runTicks initLoopState inputs).color ∈ canonicalColors) ∧
    (∀ (s : LoopState) (cmd : Option LedCommand) (ok : Bool),
      s.color ∈ canonicalColors → (cmdStep s cmd).auto_rotate = true →
      (ledBlinkTick s cmd ok).state.color ≠ s.color) := by
  refine ⟨?_, ?_, ?_⟩
  · intro s cmd ok
    match cmd with
    | none =>
        by_cases h : s.auto_rotate <;>
          simp [ledBlinkTick, cmdStep, consumesSetColor, h]
    | some .EnableAuto =>
        simp [ledBlinkTick, cmdStep, consumesSetColor]
    | some (.SetColor tc n) =>
        simp [ledBlinkTick, cmdStep, consumesSetColor]
  · intro inputs h
    exact runTicks_canonical inputs (by decide) h
  · intro s cmd ok hs hauto
    match cmd with
    | none =>
        simp only [cmdStep] at hauto
        simpa [ledBlinkTick, cmdStep, hauto] using mem_canonical_rotate_ne hs
    | some .EnableAuto =>
        simpa [ledBlinkTick, cmdStep] using mem_canonical_rotate_ne hs
    | some (.SetColor tc n) =>
        simp [cmdStep] at hauto

/-- Witness for C1 at concrete inputs: the boot-state Auto tick publishes, the
one-command run with EnableAuto stays canonical, and the boot-state Auto tick
changes the color. -/
theorem led_blink_publish_iff_state_change_witness :
    (ledBlinkTick initLoopState none true).published.isSome = true ∧
    (runTicks initLoopState [some LedCommand.EnableAuto]).color ∈ canonicalColors ∧
    (ledBlinkTick initLoopState none true).state.color ≠ initLoopState.color := by
  refine ⟨?_, ?_, ?_⟩
  · exact (led_blink_publish_iff_state_change.1 initLoopState none true).mpr
      (Or.inr (by decide))
  · exact led_blink_publish_iff_state_change.2.1 [some LedCommand.EnableAuto]
      (by
        intro cmd hc c h
        simp only [List.mem_cons, List.not_mem_nil, or_false] at hc
        rw [hc] at h
        rw [Option.some.injEq] at h
        exact Or.inl h.symm)
  · exact led_blink_publish_iff_state_change.2.2 initLoopState none true
      (by decide) (by decide)

/-- C3: consuming a SetColor command yields the adopted color, mode Manual,
and no rotation on that tick; consuming EnableAuto leaves the color unchanged
in the command step itself and the tick then resumes rotation (the tick result
is the rotated color in Auto mode); concretely, SetColor (10,0,0) named Rot
consumed in Auto mode with current color Green yields state color (10,0,0),
mode Manual, and exactly one broadcast message with color (10,0,0), name Rot,
manual mode. -/
theorem setColor_manual_enableAuto_resumes :
    (∀ (s : LoopState) (tc : RGB8) (n : String) (ok : Bool),
      (ledBlinkTick s (some (.SetColor tc n)) ok).state =
        { color := tc, auto_rotate := false }) ∧
    (∀ (s : LoopState) (ok : Bool),
      (cmdStep s (some .EnableAuto)).color = s.color ∧
      (ledBlinkTick s (some .EnableAuto) ok).state =
        { color := rotate_color s.color, auto_rotate := true }) ∧
    (ledBlinkTick { color := { r := 0, g := 10, b := 0 }, auto_rotate := true }
        (some (.SetColor { r := 10, g := 0, b := 0 } "Rot")) true =
      { state := { color := { r := 10, g := 0, b := 0 }, auto_rotate := false }
        written := { r := 10, g := 0, b := 0 }
        write_error_logged := false
        published := some { color := { r := 10, g := 0, b := 0 }, name := "Rot",
                            is_auto_mode := false } }) := by
  refine ⟨fun s tc n ok => by simp [ledBlinkTick, cmdStep],
          fun s ok => ⟨rfl, by simp [ledBlinkTick, cmdStep]⟩,
          by decide⟩

/-- C8: the tick is insensitive to the LED write result except for the error
log: a failing write yields the same next state and the same published message
as a successful one, the failure is logged (and a success is not), and the
following tick behaves identically whatever the write result was. -/
theorem write_failure_does_not_affect_state :
    ∀ (s : LoopState) (cmd : Option LedCommand),
      (ledBlinkTick s cmd false).state = (ledBlinkTick s cmd true).state ∧
      (ledBlinkTick s cmd false).published = (ledBlinkTick s cmd true).published ∧
      (ledBlinkTick s cmd false).write_error_logged = true ∧
      (ledBlinkTick s cmd true).write_error_logged = false ∧
      (∀ (cmd2 : Option LedCommand) (ok2 : Bool),
        ledBlinkTick (ledBlinkTick s cmd false).state cmd2 ok2 =
          ledBlinkTick (ledBlinkTick s cmd true).state cmd2 ok2) :=
  fun _ _ => ⟨rfl, rfl, rfl, rfl, fun _ _ => rfl⟩

/-- Exactly one channel of the color is positive, phrased as the three guard
patterns of the from_color match. -/
def singlePositiveChannel (c : RGB8) : Prop :=
  (c.g = 0 ∧ c.b = 0 ∧ 0 < c.r) ∨ (c.r = 0 ∧ c.b = 0 ∧ 0 < c.g) ∨
    (c.r = 0 ∧ c.g = 0 ∧ 0 < c.b)

/-- C6 counterexample: the color (200,0,0) is not in the canonical set, yet
from_color names it Rot, not Unbekannt, so the name is not Unbekannt for every
color outside the canonical set. -/
theorem from_color_noncanonical_named_rot :
    ({ r := 200, g := 0, b := 0 } : RGB8) ∉ canonicalColors ∧
    (LedColorMessage.from_color { r := 200, g := 0, b := 0 } true).name = "Rot" := by
  decide

/-- C6 amended: the name field of from_color is a pure function of the color
(independent of the mode flag); every color with exactly one positive channel,
at any brightness, gets that channel color name (so each canonical color gets
its matching name, and (200,0,0) is named Rot); and the name is Unbekannt
exactly when no single channel is the only positive one. -/
theorem from_color_name_pure_function :
    (∀ (c : RGB8) (m1 m2 : Bool),
      (LedColorMessage.from_color c m1).name = (LedColorMessage.from_color c m2).name) ∧
    (∀ (c : RGB8) (m : Bool),
      (c.g = 0 ∧ c.b = 0 ∧ 0 < c.r → (LedColorMessage.from_color c m).name = "Rot") ∧
      (c.r = 0 ∧ c.b = 0 ∧ 0 < c.g → (LedColorMessage.from_color c m).name = "Grün") ∧
      (c.r = 0 ∧ c.g = 0 ∧ 0 < c.b → (LedColorMessage.from_color c m).name = "Blau")) ∧
    (∀ m : Bool,
      (LedColorMessage.from_color { r := LED_BRIGHTNESS, g := 0, b := 0 } m).name = "Rot" ∧
      (LedColorMessage.from_color { r := 0, g := LED_BRIGHTNESS, b := 0 } m).name = "Grün" ∧
      (LedColorMessage.from_color { r := 0, g := 0, b := LED_BRIGHTNESS } m).name = "Blau") ∧
    (∀ (c : RGB8) (m : Bool),
      (LedColorMessage.from_color c m).name = "Unbekannt" ↔ ¬ singlePositiveChannel c) := by
  refine ⟨fun c m1 m2 => rfl, ?_, fun m => ⟨rfl, rfl, rfl⟩, ?_⟩
  · intro c m
    refine ⟨?_, ?_, ?_⟩
    · intro h
      unfold LedColorMessage.from_color
      rw [if_pos h]
    · intro h
      unfold LedColorMessage.from_color
      rw [if_neg (by omega), if_pos h]
    · intro h
      unfold LedColorMessage.from_color
      rw [if_neg (by omega), if_neg (by omega), if_pos h]
  intro c m
  unfold LedColorMessage.from_color singlePositiveChannel
  split_ifs with h1 h2 h3
  · constructor
    · intro h
      have hs : ("Rot" : String) = "Unbekannt" := h
      exact absurd hs (by decide)
    · intro h; exact absurd (Or.inl h1) h
  · constructor
    · intro h
      have hs : ("Grün" : String) = "Unbekannt" := h
      exact absurd hs (by decide)
    · intro h; exact absurd (Or.inr (Or.inl h2)) h
  · constructor
    · intro h
      have hs : ("Blau" : String) = "Unbekannt" := h
      exact absurd hs (by decide)
    · intro h; exact absurd (Or.inr (Or.inr h3)) h
  · simp only [true_iff]
    rintro (h | h | h) <;> [exact h1 h; exact h2 h; exact h3 h]

/-- C6 witness: single-positive-channel colors at non-canonical brightness get
the matching channel name, in each channel. -/
theorem from_color_name_pure_function_witness :
    (LedColorMessage.from_color { r := 200, g := 0, b := 0 } false).name = "Rot" ∧
    (LedColorMessage.from_color { r := 0, g := 200, b := 0 } true).name = "Grün" ∧
    (LedColorMessage.from_color { r := 0, g := 0, b := 7 } true).name = "Blau" :=
  ⟨(from_color_name_pure_function.2.1 { r := 200, g := 0, b := 0 } false).1 (by decide),
   (from_color_name_pure_function.2.1 { r := 0, g := 200, b := 0 } true).2.1 (by decide),
   (from_color_name_pure_function.2.1 { r := 0, g := 0, b := 7 } true).2.2 (by decide)⟩

/-! The broadcast channel policy. The channel itself is the embassy-sync
PubSubChannel, external library code; only its capacity parameters are fixed in
this repository (esp-firmware/src/lib.rs LedColorChannel). -/

/-- Per-subscriber queue capacity of the broadcast channel: the CAP parameter
of LedColorChannel (PubSubChannel message capacity 2) in esp-firmware/src/lib.rs. -/
def QUEUE_CAP : Nat := 2

/-- Modelled from the spec: publish_immediate of the embassy PubSubChannel is
external library code missing from src; section 4.2 of the spec defines publish
as always succeeding, never blocking, appending to each subscriber queue and
silently overwriting the oldest unread entry when that queue is full. A
subscriber queue is its list of unread messages, oldest first. -/
def publish_immediate (q : List LedColorMessage) (m : LedColorMessage) :
    List LedColorMessage :=
  if q.length < QUEUE_CAP then q ++ [m] else q.tail ++ [m]

/-- C4 counterexample: with the configured queue capacity 2, a fresh
subscription that is not drained before two publishes retains both messages,
and its next read returns the oldest, contradicting retains only the most
recent message. -/
theorem two_publishes_retain_oldest :
    (publish_immediate
        (publish_immediate [] (LedColorMessage.from_color { r := 10, g := 0, b := 0 } true))
        (LedColorMessage.from_color { r := 0, g := 10, b := 0 } true) =
      [LedColorMessage.from_color { r := 10, g := 0, b := 0 } true,
       LedColorMessage.from_color { r := 0, g := 10, b := 0 } true]) ∧
    (publish_immediate
        (publish_immediate [] (LedColorMessage.from_color { r := 10, g := 0, b := 0 } true))
        (LedColorMessage.from_color { r := 0, g := 10, b := 0 } true)).head? =
      some (LedColorMessage.from_color { r := 10, g := 0, b := 0 } true) ∧
    LedColorMessage.from_color { r := 10, g := 0, b := 0 } true ≠
      LedColorMessage.from_color { r := 0, g := 10, b := 0 } true := by
  decide

/-- C4 amended: publish is total and never grows a queue beyond the capacity 2;
on a full queue it silently overwrites the oldest unread entry (drops the head
and appends); on a non-full queue it appends; hence a fresh subscription not
drained before two publishes retains both messages in order, and only a third
publish drops the oldest, leaving the two most recent. -/
theorem publish_immediate_overwrites_oldest :
    (∀ (q : List LedColorMessage) (m : LedColorMessage),
      q.length ≤ QUEUE_CAP → (publish_immediate q m).length ≤ QUEUE_CAP) ∧
    (∀ (q : List LedColorMessage) (m : LedColorMessage),
      q.length = QUEUE_CAP → publish_immediate q m = q.tail ++ [m]) ∧
    (∀ (q : List LedColorMessage) (m : LedColorMessage),
      q.length < QUEUE_CAP → publish_immediate q m = q ++ [m]) ∧
    (∀ m1 m2 m3 : LedColorMessage,
      publish_immediate (publish_immediate [] m1) m2 = [m1, m2] ∧
      publish_immediate (publish_immediate (publish_immediate [] m1) m2) m3 =
        [m2, m3]) := by
  refine ⟨?_, ?_, ?_, ?_⟩
  · intro q m h
    unfold publish_immediate QUEUE_CAP at *
    split_ifs with hlt
    · simp only [List.length_append, List.length_singleton]
      omega
    · simp only [List.length_append, List.length_singleton, List.length_tail]
      omega
  · intro q m h
    unfold publish_immediate
    rw [if_neg (by omega)]
  · intro q m h
    unfold publish_immediate
    rw [if_pos h]
  · intro m1 m2 m3
    simp [publish_immediate, QUEUE_CAP]

/-- C4 witness: the overwrite-on-full branch applied to a concrete full queue. -/
theorem publish_immediate_overwrites_oldest_witness :
    ([LedColorMessage.from_color { r := 10, g := 0, b := 0 } true,
      LedColorMessage.from_color { r := 0, g := 10, b := 0 } true] :
        List LedColorMessage).length = QUEUE_CAP ∧
    publish_immediate
        [LedColorMessage.from_color { r := 10, g := 0, b := 0 } true,
         LedColorMessage.from_color { r := 0, g := 10, b := 0 } true]
        (LedColorMessage.from_color { r := 0, g := 0, b := 10 } true) =
      [LedColorMessage.from_color { r := 0, g := 10, b := 0 } true,
       LedColorMessage.from_color { r := 0, g := 0, b := 10 } true] :=
  ⟨by decide,
   by
    rw [publish_immediate_overwrites_oldest.2.1 _ _ (by decide)]
    rfl⟩

/-- Maximum simultaneous subscriber count of the broadcast channel: the SUBS
parameter of LedColorChannel (PubSubChannel, 10 subscribers) in
esp-firmware/src/lib.rs. -/
def MAX_SUBSCRIBERS : Nat := 10

/-- Modelled from the spec: subscriber() of the embassy PubSubChannel is
external library code missing from src; sections 4.2 and 7 of the spec define
subscribe as returning a new subscription while slots remain and a structured
capacity-exceeded result (never blocking, never panicking) once all subscriber
slots are taken. The channel state is the number of active subscribers; the
result is the new count, none meaning the capacity error. -/
def subscriber (activeSubscribers : Nat) : Option Nat :=
  if activeSubscribers < MAX_SUBSCRIBERS then some (activeSubscribers + 1) else none

/-- Source http.rs WebSocketResponse; the Upgrade payload is elided to the
subscriber count the accepted connection leaves behind. -/
inductive WebSocketResponse where
  | Upgrade (newActiveSubscribers : Nat)
  | ServiceUnavailable
deriving DecidableEq, Repr

/-- Source http.rs ws route closure in http_server_task: subscribe on the color
channel, upgrade on success, ServiceUnavailable on the capacity error. -/
def wsUpgradeRoute (activeSubscribers : Nat) : WebSocketResponse :=
  match subscriber activeSubscribers with
  | some n => .Upgrade n
  | none => .ServiceUnavailable

/-- An HTTP response as status code, body and headers. -/
structure HttpResponse where
  status : Nat
  body : String
  headers : List (String × String)
deriving DecidableEq, Repr

/-- Source http.rs impl IntoResponse for WebSocketResponse: the
ServiceUnavailable arm writes the concrete 503 response with a Retry-After
header; the Upgrade arm performs the websocket handshake instead of writing a
plain response, modelled as none. -/
def WebSocketResponse.write_to : WebSocketResponse → Option HttpResponse
  | .Upgrade _ => none
  | .ServiceUnavailable =>
      some { status := 503
             body := "Service Unavailable: Too many WebSocket connections (max 10)"
             headers := [("Retry-After", "5")] }

/-- C5: whenever all 10 subscriber slots are in use, subscribe returns the
capacity-exceeded result (none, not a crash: the function is total), the ws
route maps it to ServiceUnavailable, and the connection receives the structured
503 response carrying a Retry-After header. -/
theorem subscribe_beyond_capacity_503 (n : Nat) (h : MAX_SUBSCRIBERS ≤ n) :
    subscriber n = none ∧
    wsUpgradeRoute n = .ServiceUnavailable ∧
    ∃ resp : HttpResponse, (wsUpgradeRoute n).write_to = some resp ∧
      resp.status = 503 ∧ ("Retry-After", "5") ∈ resp.headers := by
  have hs : subscriber n = none := by
    unfold subscriber
    rw [if_neg (by omega)]
  have hw : wsUpgradeRoute n = .ServiceUnavailable := by
    unfold wsUpgradeRoute
    rw [hs]
  refine ⟨hs, hw, ?_⟩
  rw [hw]
  exact ⟨_, rfl, rfl, by simp [WebSocketResponse.write_to]⟩

/-- C5 witness: the eleventh subscription attempt (10 slots already active) is
refused with the 503 response. -/
theorem subscribe_beyond_capacity_503_witness :
    subscriber 10 = none ∧
    wsUpgradeRoute 10 = .ServiceUnavailable ∧
    ∃ resp : HttpResponse, (wsUpgradeRoute 10).write_to = some resp ∧
      resp.status = 503 ∧ ("Retry-After", "5") ∈ resp.headers :=
  subscribe_beyond_capacity_503 10 (by decide)

/-! The WebSocket wire protocol layer (esp-firmware/src/web/protocol.rs and the
message handling in esp-firmware/src/tasks/http.rs). -/

/-- Source web/protocol.rs ColorName. -/
inductive ColorName where
  | Red
  | Green
  | Blue
deriving DecidableEq, Repr

/-- Source web/protocol.rs ColorName::as_str. -/
def ColorName.as_str : ColorName → String
  | .Red => "Rot"
  | .Green => "Grün"
  | .Blue => "Blau"

/-- Source web/protocol.rs OperationMode. -/
inductive OperationMode where
  | Auto
  | Manual
deriving DecidableEq, Repr

/-- Source web/protocol.rs RgbColor. -/
structure RgbColor where
  r : Nat
  g : Nat
  b : Nat
deriving DecidableEq, Repr

/-- Source web/protocol.rs WsServerMessage. -/
inductive WsServerMessage where
  | Status (color : ColorName) (rgb : RgbColor) (timestamp_ms : Nat) (mode : OperationMode)
  | Error (message : String)
deriving DecidableEq, Repr

/-- Source web/protocol.rs MessageType. -/
inductive MessageType where
  | SetColor
  | SetMode
deriving DecidableEq, Repr

/-- Source web/protocol.rs WsClientMessage. -/
structure WsClientMessage where
  msg_type : MessageType
  color : Option ColorName
  mode : Option OperationMode
deriving DecidableEq, Repr

/-- Source http.rs WebSocketHandler::send_status_update, modelled as the status
message it sends: none models the early return that sends nothing when the name
is not one of the three canonical color names, and the serialize-and-send tail
otherwise. The Instant::now timestamp is the now_ms parameter. -/
def send_status_update (led_msg : LedColorMessage) (mode : OperationMode) (now_ms : Nat) :
    Option WsServerMessage :=
  let rgb : RgbColor := { r := led_msg.color.r, g := led_msg.color.g, b := led_msg.color.b }
  let color? : Option ColorName :=
    if led_msg.name = "Rot" then some .Red
    else if led_msg.name = "Grün" then some .Green
    else if led_msg.name = "Blau" then some .Blue
    else none
  match color? with
  | none => none
  | some color => some (.Status color rgb now_ms mode)

/-- Source http.rs WebSocketCallback::run, broadcast arm (Either::Second): map
the is_auto_mode flag to the OperationMode and call send_status_update. -/
def broadcastArmReply (led_msg : LedColorMessage) (now_ms : Nat) : Option WsServerMessage :=
  let mode := if led_msg.is_auto_mode then OperationMode.Auto else OperationMode.Manual
  send_status_update led_msg mode now_ms

/-- C7 counterexample: a broadcast message carrying the name Unbekannt (as
from_color produces for (10,10,10)) is received by the handler but no status
reply is sent at all, so not every received broadcast message is translated
and sent. -/
theorem broadcast_unbekannt_not_replied :
    broadcastArmReply (LedColorMessage.from_color { r := 10, g := 10, b := 10 } false) 0 =
      none := by
  decide

/-- C7 amended: every broadcast message whose name is one of the three
canonical color names is translated to exactly one status reply carrying the
matching color, the rgb triple of the message and the mode derived from
is_auto_mode, and sent; a message with any other name (such as Unbekannt) is
silently ignored and no reply is sent. -/
theorem broadcast_canonical_replied (led_msg : LedColorMessage) (now_ms : Nat) :
    ((led_msg.name = "Rot" ∨ led_msg.name = "Grün" ∨ led_msg.name = "Blau") →
      ∃ color : ColorName, color.as_str = led_msg.name ∧
        broadcastArmReply led_msg now_ms = some (WsServerMessage.Status color
          { r := led_msg.color.r, g := led_msg.color.g, b := led_msg.color.b } now_ms
          (if led_msg.is_auto_mode then OperationMode.Auto else OperationMode.Manual))) ∧
    (led_msg.name ∉ (["Rot", "Grün", "Blau"] : List String) →
      broadcastArmReply led_msg now_ms = none) := by
  constructor
  · rintro (h | h | h)
    · exact ⟨.Red, by rw [ColorName.as_str, h],
        by simp [broadcastArmReply, send_status_update, h]⟩
    · refine ⟨.Green, by rw [ColorName.as_str, h], ?_⟩
      have hne : led_msg.name ≠ "Rot" := by rw [h]; decide
      simp [broadcastArmReply, send_status_update, h, hne]
    · refine ⟨.Blue, by rw [ColorName.as_str, h], ?_⟩
      have hne1 : led_msg.name ≠ "Rot" := by rw [h]; decide
      have hne2 : led_msg.name ≠ "Grün" := by rw [h]; decide
      simp [broadcastArmReply, send_status_update, h, hne1, hne2]
  · intro h
    simp only [List.mem_cons, List.not_mem_nil, or_false, not_or] at h
    simp [broadcastArmReply, send_status_update, h.1, h.2.1, h.2.2]

/-- C7 witness: the red Auto broadcast message is translated to the concrete
status reply. -/
theorem broadcast_canonical_replied_witness :
    ∃ color : ColorName,
      color.as_str = (LedColorMessage.from_color { r := 10, g := 0, b := 0 } true).name ∧
      broadcastArmReply (LedColorMessage.from_color { r := 10, g := 0, b := 0 } true) 5 =
        some (WsServerMessage.Status color { r := 10, g := 0, b := 0 } 5
          (if (LedColorMessage.from_color { r := 10, g := 0, b := 0 } true).is_auto_mode then
            OperationMode.Auto else OperationMode.Manual)) :=
  (broadcast_canonical_replied (LedColorMessage.from_color { r := 10, g := 0, b := 0 } true)
    5).1 (Or.inl rfl)

/-! The JSON wire codec for WsServerMessage. The spec treats JSON text
internals as an opaque codec with a defined schema, so the encoding is embedded
at the level of a JSON value tree. -/

/-- A JSON value: string, number or object (the schema in section 6 needs no
other kinds). -/
inductive Json where
  | str (s : String)
  | num (n : Nat)
  | obj (fields : List (String × Json))

/-- Field lookup in a JSON object. -/
def Json.getField : Json → String → Option Json
  | .obj fields, key => fields.lookup key
  | _, _ => none

/-- Source web/protocol.rs serde rename attributes on ColorName: the German
names on the wire. -/
def ColorName.serdeName : ColorName → String
  | .Red => "Rot"
  | .Green => "Grün"
  | .Blue => "Blau"

/-- Source web/protocol.rs serde rename_all lowercase on OperationMode. -/
def OperationMode.serdeName : OperationMode → String
  | .Auto => "auto"
  | .Manual => "manual"

/-- Source web/protocol.rs RgbColor Serialize: an object with fields r, g, b. -/
def RgbColor.toJson (c : RgbColor) : Json :=
  .obj [("r", .num c.r), ("g", .num c.g), ("b", .num c.b)]

/-- Source web/protocol.rs WsServerMessage Serialize: internally tagged with
tag type, variants renamed status and error, fields in declaration order. -/
def WsServerMessage.encode : WsServerMessage → Json
  | .Status color rgb timestamp_ms mode =>
      .obj [("type", .str "status"), ("color", .str color.serdeName),
            ("rgb", rgb.toJson), ("timestamp_ms", .num timestamp_ms),
            ("mode", .str mode.serdeName)]
  | .Error message =>
      .obj [("type", .str "error"), ("message", .str message)]

/-- Wire color name back to ColorName, per the schema of section 6. -/
def ColorName.ofSerdeName (s : String) : Option ColorName :=
  if s = "Rot" then some .Red
  else if s = "Grün" then some .Green
  else if s = "Blau" then some .Blue
  else none

/-- Wire mode string back to OperationMode, per the schema of section 6. -/
def OperationMode.ofSerdeName (s : String) : Option OperationMode :=
  if s = "auto" then some .Auto
  else if s = "manual" then some .Manual
  else none

/-- Rgb object back to RgbColor, per the schema of section 6. -/
def RgbColor.ofJson (j : Json) : Option RgbColor :=
  match j.getField "r", j.getField "g", j.getField "b" with
  | some (.num r), some (.num g), some (.num b) => some { r := r, g := g, b := b }
  | _, _, _ => none

/-- Modelled from the spec: the repository derives only Serialize for
WsServerMessage (web/protocol.rs), so the decoding direction of the
device-to-client wire schema is missing from src; it is modelled here from the
schema of section 6 (tag field type with values status and error, the status
fields color, rgb, timestamp_ms, mode). -/
def WsServerMessage.decode (j : Json) : Option WsServerMessage :=
  match j.getField "type" with
  | some (.str t) =>
      if t = "status" then
        match j.getField "color", j.getField "rgb",
            j.getField "timestamp_ms", j.getField "mode" with
        | some (.str c), some rgbj, some (.num ts), some (.str m) =>
            match ColorName.ofSerdeName c, RgbColor.ofJson rgbj,
                OperationMode.ofSerdeName m with
            | some color, some rgb, some mode =>
                some (.Status color rgb ts mode)
            | _, _, _ => none
        | _, _, _, _ => none
      else if t = "error" then
        match j.getField "message" with
        | some (.str msg) => some (.Error msg)
        | _ => none
      else none
  | _ => none

/-- C9: encoding a status message to the wire form and decoding it back yields
the message with its color, rgb and mode fields (and the timestamp) unchanged,
for every combination of field values. -/
theorem status_message_roundtrip (color : ColorName) (rgb : RgbColor) (ts : Nat)
    (mode : OperationMode) :
    WsServerMessage.decode (WsServerMessage.encode (.Status color rgb ts mode)) =
      some (.Status color rgb ts mode) := by
  cases color <;> cases mode <;> rfl

/-- Source http.rs WebSocketCallback::run, text-message arm after a successful
JSON parse: what it sends on the command channel and what reply (only the
parse-error path produces one, outside this arm) goes back to the client. -/
structure HandlerAction where
  command : Option LedCommand
  reply : Option WsServerMessage
deriving DecidableEq, Repr

/-- Source http.rs match on msg.msg_type: SetColor with a recognized color name
sends the try_from command and nothing else; SetColor with an unknown or absent
color sends nothing; SetMode sends EnableAuto exactly when the mode field is
auto, and nothing at all otherwise. No branch sends a reply. -/
def handleClientMessage (msg : WsClientMessage) : HandlerAction :=
  match msg.msg_type with
  | .SetColor =>
      match msg.color with
      | some c =>
          match LedCommand.tryFrom c.as_str with
          | some command => { command := some command, reply := none }
          | none => { command := none, reply := none }
      | none => { command := none, reply := none }
  | .SetMode =>
      match msg.mode with
      | some .Auto => { command := some .EnableAuto, reply := none }
      | some .Manual => { command := none, reply := none }
      | none => { command := none, reply := none }

/-- C10: a well-formed set_mode message whose mode field is manual, or absent,
makes the handler send no command on the command channel and no reply of any
kind to the client; only mode auto triggers the EnableAuto command (also with
no reply). -/
theorem set_mode_manual_ignored :
    (∀ msg : WsClientMessage, msg.msg_type = .SetMode →
      (msg.mode = some .Manual ∨ msg.mode = none) →
      handleClientMessage msg = { command := none, reply := none }) ∧
    (∀ msg : WsClientMessage, msg.msg_type = .SetMode → msg.mode = some .Auto →
      handleClientMessage msg = { command := some .EnableAuto, reply := none }) := by
  constructor
  · rintro ⟨t, c, m⟩ ht (hm | hm) <;>
      (simp only at ht hm; subst ht; subst hm; rfl)
  · rintro ⟨t, c, m⟩ ht hm
    simp only at ht hm
    subst ht; subst hm
    rfl

/-- C10 witness: the concrete set_mode manual message and the absent-mode
message are both ignored, while set_mode auto yields EnableAuto. -/
theorem set_mode_manual_ignored_witness :
    handleClientMessage { msg_type := .SetMode, color := none, mode := some .Manual } =
      { command := none, reply := none } ∧
    handleClientMessage { msg_type := .SetMode, color := none, mode := none } =
      { command := none, reply := none } ∧
    handleClientMessage { msg_type := .SetMode, color := none, mode := some .Auto } =
      { command := some .EnableAuto, reply := none } :=
  ⟨set_mode_manual_ignored.1 _ rfl (Or.inl rfl),
   set_mode_manual_ignored.1 _ rfl (Or.inr rfl),
   set_mode_manual_ignored.2 _ rfl rfl⟩

end EspLed
